import Mathlib

/-!
Verification development for the Mamba2 selective state-space model implementation
in src/transformers/models/mamba2/modeling_mamba2.py.

The numeric code is shallowly embedded over exact rationals (ℚ).  Transcendental
functions of the source (torch.exp, torch.rsqrt, the pointwise activation /
nn.functional.silu) are taken as explicit function parameters `rexp`, `rsqrt`,
`act`/`silu` of the definitions, so every statement quantifies over (or fixes)
their interpretation; the dtype casts of the source (.float(), .to(dtype)) are
identities in exact arithmetic.  The slow (reference) path of the source only
executes with batch size 1 — all per-step tensors are modelled at batch 1, with
the batch axis dropped.  Tensors are modelled as index functions (ℕ → ... → ℚ)
or as lists; reshapes become explicit flat-index arithmetic.
-/

set_option maxHeartbeats 1000000

namespace Mamba2

/-! ## Basic helpers -/

/-- Arithmetic mean of a list (torch `.mean(-1)`). -/
def mean (l : List ℚ) : ℚ := l.sum / (l.length : ℚ)

/-- Mean of squares (torch `.pow(2).mean(-1)`). -/
def meanSq (l : List ℚ) : ℚ := mean (l.map (fun a => a ^ 2))

/-- Elementwise product then sum (torch `torch.sum(a * b, dim=-1)`). -/
def dot (xs ws : List ℚ) : ℚ := (List.zipWith (fun a b => a * b) xs ws).sum

/-! ## Depthwise convolution unit (`Mamba2Mixer.conv1d`, `slow_forward` lines 283-308)

`nn.Conv1d(kernel_size=K, padding=K-1, groups=conv_dim)` is a per-channel
cross-correlation against an input zero-padded by K-1 on both sides.  We model
one channel: `x` is the channel's input sequence (chronological), `w` the
channel's K kernel taps `conv1d.weight[c, 0, :]`. -/

/-- Read position `i` of the K-1 left-zero-padded input (right reads past the
end give 0 as well, matching the right padding). -/
def padRead (K : ℕ) (x : List ℚ) (i : ℕ) : ℚ :=
  if i < K - 1 then 0 else x.getD (i - (K - 1)) 0

/-- Full padded convolution output at index `j` (0 ≤ j < L + K - 1):
`out[j] = bias + Σ_k w[k] · xpad[j + k]`. -/
def conv1dFull (w x : List ℚ) (bias : ℚ) (j : ℕ) : ℚ :=
  ((List.range w.length).map (fun k => w.getD k 0 * padRead w.length x (j + k))).sum + bias

/-- Prefill-path convolution value at sequence position `s` before the
activation: line 302 slices the full conv output from index K-1 on
(`[:, (self.conv_kernel_size - 1):, :]`), so position `s` reads full output
index `s + (K-1)`. -/
def convPrefillPre (w x : List ℚ) (bias : ℚ) (s : ℕ) : ℚ :=
  conv1dFull w x bias (s + (w.length - 1))

/-- Prefill-path convolution output after the pointwise activation (line 302). -/
def convPrefillOut (act : ℚ → ℚ) (w x : List ℚ) (bias : ℚ) (s : ℕ) : ℚ :=
  act (convPrefillPre w x bias s)

/-- `torch.roll(conv_state, shifts=-1, dims=-1)` on one channel's buffer
(line 288): circular left rotation by one. -/
def rollLeft1 (l : List ℚ) : List ℚ := l.drop 1 ++ l.take 1

/-- `conv_state[:, :, -1] = hidden_states` on one channel (line 289): overwrite
the last slot with the value the assignment carries for that channel.  NOTE:
in this revision the source assignment itself raises before writing — the
assigned value still has shape (batch, 1, conv_dim) (no transpose(1, 2)
precedes line 289) against the (batch, conv_dim) slot, and a setitem value
with more dimensions than the destination is rejected; see `stepConvInsert`
below.  This definition models the per-channel write the line attempts, and is
used for shape accounting of the buffer the write would produce. -/
def setLast (l : List ℚ) (v : ℚ) : List ℚ := l.dropLast ++ [v]

/-- Rolling buffer that lines 288-289 attempt to build (roll left, insert the
new frame last).  Unreachable as a completed value in this revision: line 289
raises (see `stepConvInsert`); kept as the shape model of the attempted
write. -/
def stepConvState (buf : List ℚ) (xnew : ℚ) : List ℚ := setLast (rollLeft1 buf) xnew

/-- Single-step convolution value before the activation as lines 291-293 would
compute it (per-channel dot product of the updated buffer against the kernel
taps, plus the optional bias); unreachable in this revision because line 289
raises first. -/
def stepConvPre (buf : List ℚ) (xnew : ℚ) (w : List ℚ) (bias : ℚ) : ℚ :=
  dot (stepConvState buf xnew) w + bias

/-- Single-step convolution output after the activation as line 294 would
compute it; unreachable in this revision because line 289 raises first. -/
def stepConvOut (act : ℚ → ℚ) (buf : List ℚ) (xnew : ℚ) (w : List ℚ) (bias : ℚ) : ℚ :=
  act (stepConvPre buf xnew w bias)

/-- Prefill-path cache write (lines 297-301):
`nn.functional.pad(x, (K - L, 0))` left-pads with zeros when L ≤ K and
truncates the oldest frames when L > K (negative pad), always yielding a
length-K buffer. -/
def prefillConvState (K : ℕ) (x : List ℚ) : List ℚ :=
  (List.replicate (K - x.length) 0 ++ x).drop (x.length - K)

/-! ## Shape bookkeeping: `torch.split` and `Tensor.copy_` -/

/-- `torch.split(t, sizes, dim=-1)` requires the sizes to sum exactly to the
size of the dimension; otherwise it raises. -/
def splitSizesCheck (dimSize : ℕ) (sizes : List ℕ) : Except String Unit :=
  if sizes.sum = dimSize then Except.ok () else
    Except.error "split_with_sizes expects split_sizes to sum exactly to the dimension size"

/-- Shape of the single-step path's hidden states entering the split: line 294
ends with `.unsqueeze(-1)`, with the comment `[batch, intermediate_size, 1]`. -/
def stepConvHiddenShape (b convDim : ℕ) : List ℕ := [b, convDim, 1]

/-- Line 312 on the single-step path: split the conv output along its last
axis into sizes `[intermediate_size, n_groups*state_size, n_groups*state_size]`
(`I`, `GN`, `GN` below; the conv dimension is `I + 2*GN`). -/
def slowStepSplit (b I GN : ℕ) : Except String Unit :=
  splitSizesCheck ((stepConvHiddenShape b (I + 2 * GN)).getLastD 0) [I, GN, GN]

/-- PyTorch broadcastability of a source shape to a destination shape
(right-aligned; each source dim must equal the destination dim or be 1, and the
source may not have more dims). -/
def broadcastableTo (src dst : List ℕ) : Bool :=
  decide (src.length ≤ dst.length) &&
    (List.zipWith (fun s d => decide (s = d) || decide (s = 1)) src.reverse dst.reverse).all id

/-- Shape behaviour of `Tensor.copy_` (cache writes at lines 290, 301, 336):
the destination keeps its shape when the copy succeeds, and the call raises
(without resizing anything) when the source is not broadcastable. -/
def copyIntoShape (dst src : List ℕ) : Except String (List ℕ) :=
  if broadcastableTo src dst then Except.ok dst else
    Except.error "copy_ source shape is not broadcastable to destination shape"

/-- Shape of the cached tensor after a `copy_` attempt: unchanged whether the
copy succeeds or raises. -/
def cacheShapeAfterCopy (dst src : List ℕ) : List ℕ :=
  match copyIntoShape dst src with
  | Except.ok r => r
  | Except.error _ => dst

/-- Shape of `hidden_states` when line 289 executes on the single-step path:
the raw projection slice (batch, seq_len = 1, conv_dim) — this revision has no
`.transpose(1, 2)` between the projection (line 273) and the insert. -/
def stepHiddenStatesShape (batch convDim : ℕ) : List ℕ := [batch, 1, convDim]

/-- Shape of the line-289 assignment target `conv_state[:, :, -1]`:
(batch, conv_dim), the last-slot slice of the (batch, conv_dim, K) buffer. -/
def convStateLastSlotShape (batch convDim : ℕ) : List ℕ := [batch, convDim]

/-- PyTorch setitem shape rule: the assigned value is expanded to the
destination slot's shape, and expansion rejects a value with more dimensions
than the destination (leading singleton dimensions are not stripped). -/
def setItemCheck (dstShape srcShape : List ℕ) : Except String Unit :=
  if broadcastableTo srcShape dstShape then Except.ok () else
    Except.error "setitem value is not expandable to the destination slot shape"

/-- Line 289's insert `conv_state[:, :, -1] = hidden_states` on the
single-step path: a 3-D value assigned into a 2-D slot. -/
def stepConvInsert (batch convDim : ℕ) : Except String Unit :=
  setItemCheck (convStateLastSlotShape batch convDim) (stepHiddenStatesShape batch convDim)

/-- `Mamba2Cache.__init__` line 90: conv_states[i] has shape
(batch, intermediate_size + 2*n_groups*state_size, conv_kernel_size). -/
def convCacheShape (batch convDim K : ℕ) : List ℕ := [batch, convDim, K]

/-- `Mamba2Cache.__init__` line 94: ssm_states[i] has shape
(batch, n_groups*state_size, head_dim). -/
def ssmCacheShape (batch GN P : ℕ) : List ℕ := [batch, GN, P]

/-! ## Path selection and `seqlen_offset` lifecycle -/

/-- The three convolution/recurrence code paths of `slow_forward`. -/
inductive ConvMode
  | prefillNoCache
  | prefillCache
  | step
  deriving DecidableEq

/-- Path selection of `slow_forward` (lines 283, 286, 295, 303): a cache with
`seqlen_offset > 0` takes the single-step path, a cache with offset 0 takes the
prefill-with-cache path, no cache takes the plain prefill path. -/
def slowConvMode (cachePresent : Bool) (seqlenOffset : ℕ) : ConvMode :=
  if cachePresent then
    (if 0 < seqlenOffset then ConvMode.step else ConvMode.prefillCache)
  else ConvMode.prefillNoCache

/-- `Mamba2Model.forward` lines 623-624: `if use_cache:
cache_params.seqlen_offset += inputs_embeds.shape[1]`. -/
def mamba2OffsetUpdate (useCache : Bool) (offset seqLen : ℕ) : ℕ :=
  if useCache then offset + seqLen else offset

/-- `Mamba2Model.forward` line 596: the guard
`(input_ids is None) ^ (inputs_embeds is not None)` (`^` is boolean xor). -/
def raisesInputError (idsGiven embedsGiven : Bool) : Bool :=
  Bool.xor (!idsGiven) embedsGiven

/-- Input validation of `Mamba2Model.forward` (lines 596-599): raise ValueError
when the guard fires, otherwise proceed. -/
def mamba2InputCheck (idsGiven embedsGiven : Bool) : Except String Unit :=
  if raisesInputError idsGiven embedsGiven then
    Except.error "You cannot specify both input_ids and inputs_embeds at the same time, and must specify either one"
  else Except.ok ()

/-! ## State-space recurrence, code path (`slow_forward` lines 314-330, batch 1)

Configuration: H = num_heads, G = n_groups, N = ssm_state_size, P = head_dim,
intermediate_size = H·P.   Per-step tensors (batch axis dropped):
`dt t h` is the softplus-ed step size, `B t ν` and `C t ν` the flattened
group vectors (ν < G·N, with flat index ν = g·N + n), `x t h p` the conv output
reshaped to heads.

Line 318: `discrete_B = dt[:,:,:,None] * B.reshape(b, L, 1, G*N)` pairs every
head with the *full* flattened G·N vector.  Line 319 multiplies by
`x.reshape(b, L, H, P, 1)`, giving `pre t h p ν = x t h p * (dt t h * B t ν)`.
Line 320 reshapes the trailing (P, G·N) block row-major to (-1, P) = (G·N, P):
entry (m, q) of the reshaped block is entry ((m·P+q) / (G·N), (m·P+q) % (G·N))
of the original.  Line 327 broadcasts `discrete_A[:, i, :, None, None]` over
the trailing two axes.  Line 328's `torch.matmul(C[:, i, :], ssm_state)`
(batch 1) contracts C against the *first* trailing axis (`m`), and line 329
keeps the resulting row. -/

/-- `discrete_A[t, h] = exp(dt[t, h] * A[h])` with `A = -exp(A_log)`
(lines 314-315). -/
def discreteDecay (rexp : ℚ → ℚ) (dt : ℕ → ℕ → ℚ) (Alog : ℕ → ℚ) (t hh : ℕ) : ℚ :=
  rexp (dt t hh * (-(rexp (Alog hh))))

/-- `deltaB_u` after the line-320 reshape, entry (t, h, m, q). -/
def codeInject (G N P : ℕ) (dt : ℕ → ℕ → ℚ) (B : ℕ → ℕ → ℚ) (x : ℕ → ℕ → ℕ → ℚ)
    (t hh m q : ℕ) : ℚ :=
  x t hh ((m * P + q) / (G * N)) * (dt t hh * B t ((m * P + q) % (G * N)))

/-- One recurrence update (line 327):
`ssm_state = ssm_state * discrete_A[:, i, :, None, None] + deltaB_u[:, i]`. -/
def codeStateStep (dAt : ℕ → ℚ) (st inj : ℕ → ℕ → ℕ → ℚ) : ℕ → ℕ → ℕ → ℚ :=
  fun hh m q => st hh m q * dAt hh + inj hh m q

/-- State after `t` updates of the sequential loop (lines 326-327), from
initial state `st0` (zero when no cache, the cached state otherwise). -/
def codeScanState (G N P : ℕ) (rexp : ℚ → ℚ) (dt : ℕ → ℕ → ℚ) (Alog : ℕ → ℚ)
    (B : ℕ → ℕ → ℚ) (x : ℕ → ℕ → ℕ → ℚ) (st0 : ℕ → ℕ → ℕ → ℚ) :
    ℕ → ℕ → ℕ → ℕ → ℚ
  | 0 => st0
  | t + 1 =>
      codeStateStep (discreteDecay rexp dt Alog t)
        (codeScanState G N P rexp dt Alog B x st0 t) (codeInject G N P dt B x t)

/-- Per-step readout of the loop (lines 328-329):
`torch.matmul(C[:, i, :], ssm_state)[:, :, 0, :]`, i.e. the contraction of C
against the first trailing state axis. -/
def codeReadout (G N P : ℕ) (rexp : ℚ → ℚ) (dt : ℕ → ℕ → ℚ) (Alog : ℕ → ℚ)
    (B C : ℕ → ℕ → ℚ) (x : ℕ → ℕ → ℕ → ℚ) (st0 : ℕ → ℕ → ℕ → ℚ)
    (t hh q : ℕ) : ℚ :=
  ((List.range (G * N)).map
    (fun m => C t m * codeScanState G N P rexp dt Alog B x st0 (t + 1) hh m q)).sum

/-! ## State-space recurrence as the spec states it (spec §4.1 steps 1-3)

`HperG` is heads-per-group (= num_heads / n_groups); head `hh` reads group
g(hh) = hh / HperG, and the flattened group vectors are indexed g·N + n. -/

/-- Spec step 2: `inject[t, h, p, n] = dt[t, h] * B[t, g(h), n] * x[t, h, p]`. -/
def specInject (N HperG : ℕ) (dt : ℕ → ℕ → ℚ) (B : ℕ → ℕ → ℚ) (x : ℕ → ℕ → ℕ → ℚ)
    (t hh p n : ℕ) : ℚ :=
  dt t hh * B t ((hh / HperG) * N + n) * x t hh p

/-- Spec step 3 update: `state[h, p, n] ← state[h, p, n] * dA[t, h] + inject`. -/
def specStateStep (dAt : ℕ → ℚ) (st inj : ℕ → ℕ → ℕ → ℚ) : ℕ → ℕ → ℕ → ℚ :=
  fun hh p n => st hh p n * dAt hh + inj hh p n

/-- Spec state after `t` sequential updates from `st0`. -/
def specScanState (N HperG : ℕ) (rexp : ℚ → ℚ) (dt : ℕ → ℕ → ℚ) (Alog : ℕ → ℚ)
    (B : ℕ → ℕ → ℚ) (x : ℕ → ℕ → ℕ → ℚ) (st0 : ℕ → ℕ → ℕ → ℚ) :
    ℕ → ℕ → ℕ → ℕ → ℚ
  | 0 => st0
  | t + 1 =>
      specStateStep (discreteDecay rexp dt Alog t)
        (specScanState N HperG rexp dt Alog B x st0 t) (specInject N HperG dt B x t)

/-- Spec step 3 readout:
`readout[t, h, p] = Σ_n C[t, g(h), n] * state[h, p, n]`. -/
def specReadout (N HperG : ℕ) (rexp : ℚ → ℚ) (dt : ℕ → ℕ → ℚ) (Alog : ℕ → ℚ)
    (B C : ℕ → ℕ → ℚ) (x : ℕ → ℕ → ℕ → ℚ) (st0 : ℕ → ℕ → ℕ → ℚ)
    (t hh p : ℕ) : ℚ :=
  ((List.range N).map
    (fun n => C t ((hh / HperG) * N + n) *
      specScanState N HperG rexp dt Alog B x st0 (t + 1) hh p n)).sum

/-! ## Concrete recurrence inputs for the counterexample configuration
batch=1, H=1 head, G=1 group, N=2 state dims, P=2 head dims, seq_len=1
(so intermediate_size = 2 = G·N and the source's broadcasts are exact). -/

/-- Step size 1 everywhere (post-softplus value). -/
def cexDt : ℕ → ℕ → ℚ := fun _ _ => 1

/-- Arbitrary log-decay parameter (its value is irrelevant from a zero state). -/
def cexAlog : ℕ → ℚ := fun _ => 0

/-- Input gate vector B = (0, 1). -/
def cexB : ℕ → ℕ → ℚ := fun _ v => if v = 1 then 1 else 0

/-- Output readout vector C = (1, 0). -/
def cexC : ℕ → ℕ → ℚ := fun _ v => if v = 0 then 1 else 0

/-- Head input x = (1, 0) over the head-feature axis. -/
def cexX : ℕ → ℕ → ℕ → ℚ := fun _ _ p => if p = 0 then 1 else 0

/-- Zero initial recurrent state (no cache, sequence start). -/
def zeroState : ℕ → ℕ → ℕ → ℚ := fun _ _ _ => 0

/-! ## Mixer post-processing (`slow_forward` lines 331-332) and the gated RMS
normalization unit (`MambaRMSNormGated.forward`, lines 110-123) -/

/-- Slow-path per-step output before the final projection (lines 331-332):
`(scan_output + x·D[h]) * act(gate)` with the gate reshaped to heads — note no
normalization is applied.  `P` is head_dim; channel of (h, p) is h·P + p. -/
def slowPost (P : ℕ) (act : ℚ → ℚ) (readout x : ℕ → ℕ → ℚ) (Dv : ℕ → ℚ)
    (gate : ℕ → ℚ) (hh p : ℕ) : ℚ :=
  (readout hh p + x hh p * Dv hh) * act (gate (hh * P + p))

/-- RMS normalization step (lines 113-114 and 120-121):
`hs * rsqrt(mean(hs²) + eps)` elementwise. -/
def rmsNormalize (rsqrt : ℚ → ℚ) (eps : ℚ) (hs : List ℚ) : List ℚ :=
  hs.map (fun a => a * rsqrt (meanSq hs + eps))

/-- `MambaRMSNormGated.forward` with a gate (lines 110-123): normalize; in mode
`norm_before_gate` multiply by silu(gate); otherwise multiply by silu(gate) and
normalize a second time; finally rescale by the learned weight. -/
def gatedNormCode (rsqrt silu : ℚ → ℚ) (eps : ℚ) (normBeforeGate : Bool)
    (w hs g : List ℚ) : List ℚ :=
  let h1 := rmsNormalize rsqrt eps hs
  let h2 :=
    if normBeforeGate then List.zipWith (fun a b => a * b) h1 (g.map silu)
    else rmsNormalize rsqrt eps (List.zipWith (fun a b => a * b) h1 (g.map silu))
  List.zipWith (fun a b => a * b) w h2

/-- The gated normalization as the spec states it (§4.3): mode (a) multiplies
the silu gate after normalizing, mode (b) multiplies the silu gate *before* the
(single) normalization; the result is rescaled by the weight. -/
def gatedNormSpec (rsqrt silu : ℚ → ℚ) (eps : ℚ) (normBeforeGate : Bool)
    (w hs g : List ℚ) : List ℚ :=
  if normBeforeGate then
    List.zipWith (fun a b => a * b) w
      (List.zipWith (fun a b => a * b) (rmsNormalize rsqrt eps hs) (g.map silu))
  else
    List.zipWith (fun a b => a * b) w
      (rmsNormalize rsqrt eps (List.zipWith (fun a b => a * b) hs (g.map silu)))

/-- `rsqrt` computes the true inverse square root at argument `v`. -/
def isInvSqrtAt (rsqrt : ℚ → ℚ) (v : ℚ) : Prop :=
  0 < rsqrt v ∧ rsqrt v * rsqrt v * v = 1

/-! ## Concrete function interpretations used by counterexamples/witnesses -/

/-- Exact inverse square root at the two arguments reached by the C8
counterexample run (25/4 and 289/100). -/
def rsqrtCex : ℚ → ℚ := fun v => if v = 289/100 then 10/17 else if v = 25/4 then 2/5 else 0

/-- A gate nonlinearity interpretation with nonzero value (silu(1) ≈ 0.731 ≠ 0
for the real silu; only nonzeroness is used). -/
def siluCex : ℚ → ℚ := fun _ => 1

/-- Exact inverse square root at 25/4, used by the C3 witness. -/
def rsqrtC3 : ℚ → ℚ := fun _ => 2/5

/-- Constant-one interpretation. -/
def oneFun : ℚ → ℚ := fun _ => 1

/-- Identity interpretation (the "linear" activation). -/
def idFun : ℚ → ℚ := fun a => a

/-- Constant-zero interpretation (the decay limit exp → 0). -/
def zeroFun : ℚ → ℚ := fun _ => 0

/-- Exact inverse square root at 4 (value 1/2) and at 1 (value 1), used by the
C8 amended-claim witness. -/
def rsqrtW : ℚ → ℚ := fun v => if v = 4 then 1/2 else 1

/-! ## Theorems -/

/-- C10: `Mamba2Model.forward` raises the ValueError exactly when both
input_ids and inputs_embeds are supplied, or neither is; with exactly one of
the two the check passes and the forward pass proceeds. -/
theorem input_ids_embeds_xor_check :
    ∀ idsGiven embedsGiven : Bool,
      (Mamba2.mamba2InputCheck idsGiven embedsGiven).isOk = false ↔
        ((idsGiven = true ∧ embedsGiven = true) ∨
          (idsGiven = false ∧ embedsGiven = false)) := by
  decide

/-- C7 counterexample: the claim says `seqlen_offset` is incremented by the
input length after *every* forward call, but a call with `use_cache` false
(line 623 guards the increment) leaves it unchanged: processing 1 token from
offset 0 does not yield offset 1. -/
theorem seqlen_offset_not_always_incremented :
    ¬ (Mamba2.mamba2OffsetUpdate false 0 1 = 0 + 1) := by
  decide

/-- C7 amended: `seqlen_offset` is monotonically non-decreasing; it is
incremented by the input's sequence length exactly on calls with `use_cache`
enabled (and unchanged otherwise); with a cache present, offset 0 selects the
prefill path and any positive offset selects the single-step path. -/
theorem seqlen_offset_amended :
    (∀ u : Bool, ∀ o L : ℕ, o ≤ Mamba2.mamba2OffsetUpdate u o L) ∧
    (∀ o L : ℕ, Mamba2.mamba2OffsetUpdate true o L = o + L) ∧
    (∀ o L : ℕ, Mamba2.mamba2OffsetUpdate false o L = o) ∧
    Mamba2.slowConvMode true 0 = Mamba2.ConvMode.prefillCache ∧
    (∀ off : ℕ, Mamba2.slowConvMode true (off + 1) = Mamba2.ConvMode.step) ∧
    (∀ off : ℕ, Mamba2.slowConvMode false off = Mamba2.ConvMode.prefillNoCache) := by
  refine ⟨?_, fun o L => rfl, fun o L => rfl, rfl, fun off => ?_, fun off => rfl⟩
  · intro u o L
    cases u <;> simp [Mamba2.mamba2OffsetUpdate]
  · simp [Mamba2.slowConvMode]

/-- C6 (code bug): the single-step convolution path never reaches the buffer
insert, the cache write or the dot product: line 289 assigns `hidden_states`
of shape (batch, 1, conv_dim) — this revision has no transpose(1, 2) before
the insert — into the slot `conv_state[:, :, -1]` of shape (batch, conv_dim),
and a setitem value with more dimensions than the destination slot is
rejected, for every batch size and conv dimension. -/
theorem step_conv_insert_raises :
    ∀ batch convDim : ℕ, (Mamba2.stepConvInsert batch convDim).isOk = false := by
  intro batch convDim
  rfl

/-- C4: cache tensor shapes are invariant: the single-step conv buffer update
and the prefill conv buffer write both produce buffers of the allocated length
K, and a `copy_` into a cache tensor leaves its shape unchanged whether it
succeeds or raises (it never reallocates or resizes); in particular the
single-step path's 4-D recurrent-state write into the 3-D allocated
`ssm_states` slot raises rather than resizing. -/
theorem cache_shapes_invariant (K : ℕ) (buf xs : List ℚ) (xnew : ℚ)
    (hbuf : buf.length = K) (hK : 1 ≤ K) :
    (Mamba2.stepConvState buf xnew).length = K ∧
    (Mamba2.prefillConvState K xs).length = K ∧
    (∀ dst src : List ℕ, Mamba2.cacheShapeAfterCopy dst src = dst) ∧
    (Mamba2.copyIntoShape (Mamba2.ssmCacheShape 1 2 2) [1, 1, 2, 2]).isOk = false := by
  refine ⟨?_, ?_, ?_, by decide⟩
  · simp only [Mamba2.stepConvState, Mamba2.setLast, Mamba2.rollLeft1,
      List.length_append, List.length_dropLast, List.length_drop,
      List.length_take, List.length_cons, List.length_nil]
    omega
  · simp only [Mamba2.prefillConvState, List.length_drop, List.length_append,
      List.length_replicate]
    omega
  · intro dst src
    cases hb : Mamba2.broadcastableTo src dst <;>
      simp [Mamba2.cacheShapeAfterCopy, Mamba2.copyIntoShape, hb]

/-- C4 witness: the cache shape invariants at K = 2, buffer [1, 2], prefill
input [3], new frame 4. -/
theorem cache_shapes_invariant_witness :
    ([(1 : ℚ), 2].length = 2) ∧
    ((Mamba2.stepConvState [(1 : ℚ), 2] 4).length = 2 ∧
      (Mamba2.prefillConvState 2 [(3 : ℚ)]).length = 2) := by
  refine ⟨by decide, ?_⟩
  have h := cache_shapes_invariant 2 [(1 : ℚ), 2] [(3 : ℚ)] 4 (by decide) (by decide)
  exact ⟨h.1, h.2.1⟩

/-- C5 (code bug): the prefill convolution is not causal.  With kernel taps
[0, 1] (K = 2) the two inputs [0, 5] and [0, 0] agree at position 0, yet the
prefill output at position 0 differs (it reads the future input at position 1):
line 302's slice `[:, (K-1):, :]` selects the forward-looking windows of the
padded convolution. -/
theorem prefill_conv_not_causal (act : ℚ → ℚ) (hact : act 5 ≠ act 0) :
    Mamba2.convPrefillOut act [0, 1] [0, 5] 0 0 ≠
      Mamba2.convPrefillOut act [0, 1] [0, 0] 0 0 := by
  have h1 : Mamba2.convPrefillOut act [0, 1] [0, 5] 0 0 = act 5 := by
    norm_num [Mamba2.convPrefillOut, Mamba2.convPrefillPre, Mamba2.conv1dFull,
      Mamba2.padRead, List.range_succ]
  have h2 : Mamba2.convPrefillOut act [0, 1] [0, 0] 0 0 = act 0 := by
    norm_num [Mamba2.convPrefillOut, Mamba2.convPrefillPre, Mamba2.conv1dFull,
      Mamba2.padRead, List.range_succ]
  rw [h1, h2]
  exact hact

/-- C5 witness: the anti-causal divergence realized at the identity
activation. -/
theorem prefill_conv_not_causal_witness :
    (Mamba2.idFun 5 ≠ Mamba2.idFun 0) ∧
    Mamba2.convPrefillOut Mamba2.idFun [0, 1] [0, 5] 0 0 ≠
      Mamba2.convPrefillOut Mamba2.idFun [0, 1] [0, 0] 0 0 :=
  ⟨by norm_num [Mamba2.idFun],
    prefill_conv_not_causal Mamba2.idFun (by norm_num [Mamba2.idFun])⟩

/-- C9: if the discrete decay factor of a step is zero (the decay_rate → -∞
limit), the state after that step's update (line 327) equals that step's input
injection alone, for every prior state. -/
theorem zero_decay_forgets_state (rexp : ℚ → ℚ) (dt : ℕ → ℕ → ℚ) (Alog : ℕ → ℚ)
    (st inj : ℕ → ℕ → ℕ → ℚ) (t hh m q : ℕ)
    (hz : Mamba2.discreteDecay rexp dt Alog t hh = 0) :
    Mamba2.codeStateStep (Mamba2.discreteDecay rexp dt Alog t) st inj hh m q =
      inj hh m q := by
  simp [Mamba2.codeStateStep, hz]

/-- C9 witness: with the zero interpretation of exp the discrete decay is 0 and
a step from prior state 7 lands exactly on the injection 5. -/
theorem zero_decay_forgets_state_witness :
    (Mamba2.discreteDecay Mamba2.zeroFun Mamba2.cexDt Mamba2.cexAlog 0 0 = 0) ∧
    Mamba2.codeStateStep (Mamba2.discreteDecay Mamba2.zeroFun Mamba2.cexDt Mamba2.cexAlog 0)
      (fun _ _ _ => 7) (fun _ _ _ => 5) 0 0 0 = 5 :=
  ⟨rfl, zero_decay_forgets_state Mamba2.zeroFun Mamba2.cexDt Mamba2.cexAlog
    (fun _ _ _ => 7) (fun _ _ _ => 5) 0 0 0 0 rfl⟩

/-- C1 (code bug): the single-step incremental path cannot reproduce the
prefill outputs because it raises before producing any: after the step
convolution the hidden states have shape (batch, conv_dim, 1) (line 294) and
line 312 splits the last axis (size 1) into sizes
[intermediate_size, GN, GN] summing to conv_dim, which `torch.split`
rejects for every real configuration. -/
theorem slow_step_split_errors (b I GN : ℕ) (hI : 1 ≤ I) (hG : 1 ≤ GN) :
    (Mamba2.slowStepSplit b I GN).isOk = false := by
  have hlast : (Mamba2.stepConvHiddenShape b (I + 2 * GN)).getLastD 0 = 1 := rfl
  unfold Mamba2.slowStepSplit Mamba2.splitSizesCheck
  rw [hlast, if_neg (by simp only [List.sum_cons, List.sum_nil]; omega)]
  rfl

/-- C1 witness: the split failure at the concrete configuration
intermediate_size = 2, n_groups·state_size = 2 (conv_dim = 6). -/
theorem slow_step_split_errors_witness :
    (1 ≤ 2) ∧ (Mamba2.slowStepSplit 1 2 2).isOk = false :=
  ⟨by decide, slow_step_split_errors 1 2 2 (by decide) (by decide)⟩

/-- C2 (code bug): at the configuration H=1, G=1, N=2, P=2, seq_len=1, zero
initial state, step size 1, B=(0,1), C=(1,0), x=(1,0), the code's readout at
head 0, feature 1 is 1 for every interpretation of exp, while the claimed
formula gives 0: the line-320 reshape and the line-328 matmul contract the
head-feature axis instead of the state axis (readout = (C·x)·dt·B[p] instead
of (C·B)·dt·x[p]). -/
theorem slow_scan_readout_deviates_from_spec :
    ∀ rexp : ℚ → ℚ,
      Mamba2.codeReadout 1 2 2 rexp Mamba2.cexDt Mamba2.cexAlog Mamba2.cexB
          Mamba2.cexC Mamba2.cexX Mamba2.zeroState 0 0 1 = 1 ∧
      Mamba2.specReadout 2 1 rexp Mamba2.cexDt Mamba2.cexAlog Mamba2.cexB
          Mamba2.cexC Mamba2.cexX Mamba2.zeroState 0 0 1 = 0 := by
  intro rexp
  constructor
  · simp [Mamba2.codeReadout, Mamba2.codeScanState, Mamba2.codeStateStep,
      Mamba2.codeInject, Mamba2.cexDt, Mamba2.cexAlog, Mamba2.cexB, Mamba2.cexC,
      Mamba2.cexX, Mamba2.zeroState, List.range_succ]
  · simp [Mamba2.specReadout, Mamba2.specScanState, Mamba2.specStateStep,
      Mamba2.specInject, Mamba2.cexDt, Mamba2.cexAlog, Mamba2.cexB, Mamba2.cexC,
      Mamba2.cexX, Mamba2.zeroState, List.range_succ]

/-- C3 (code bug): the slow path's per-step output (lines 331-332) multiplies
the skip-corrected readout by act(gate) directly and never applies the gated
RMS normalization unit: at readout 1, input 1, D = 1 (value v = 2), unit
weight, gate 1 and eps = 9/4 the slow-path value 2·silu(1) differs from the
normalized value (4/5)·silu(1) for every interpretation with silu(1) ≠ 0 and
the true inverse square root at 25/4. -/
theorem slow_post_skips_gated_norm (silu rsqrt : ℚ → ℚ)
    (hsilu : silu 1 ≠ 0) (hr : rsqrt (25/4) = 2/5) :
    Mamba2.slowPost 1 silu (fun _ _ => 1) (fun _ _ => 1) (fun _ => 1)
        (fun _ => 1) 0 0 ≠
      (Mamba2.gatedNormCode rsqrt silu (9/4) true [1] [2] [1]).getD 0 0 := by
  have hv : (Mamba2.gatedNormCode rsqrt silu (9/4) true [1] [2] [1]).getD 0 0 =
      4/5 * silu 1 := by
    have harg : Mamba2.meanSq [(2 : ℚ)] + 9/4 = 25/4 := by
      norm_num [Mamba2.meanSq, Mamba2.mean]
    simp [Mamba2.gatedNormCode, Mamba2.rmsNormalize, harg, hr]
    exact Or.inl (by norm_num)
  have hp : Mamba2.slowPost 1 silu (fun _ _ => 1) (fun _ _ => 1) (fun _ => 1)
      (fun _ => 1) 0 0 = 2 * silu 1 := by
    simp [Mamba2.slowPost]
    exact Or.inl (by norm_num)
  rw [hp, hv]
  intro heq
  apply hsilu
  linarith

/-- Multiplying the left list of an elementwise product by a scalar commutes
with the product. -/
theorem zipWith_mul_map_left (r : ℚ) :
    ∀ l l2 : List ℚ,
      List.zipWith (fun a b => a * b) (l.map (fun a => a * r)) l2 =
        (List.zipWith (fun a b => a * b) l l2).map (fun a => a * r)
  | [], l2 => by simp
  | a :: l, [] => by simp
  | a :: l, b :: l2 => by
    simp only [List.map_cons, List.zipWith_cons_cons]
    rw [zipWith_mul_map_left r l l2]
    congr 1
    ring

/-- Sum of squares of a scalar-multiplied list. -/
theorem sum_map_sq_mul (r : ℚ) :
    ∀ l : List ℚ,
      ((l.map (fun a => a * r)).map (fun a => a ^ 2)).sum =
        r ^ 2 * (l.map (fun a => a ^ 2)).sum
  | [] => by simp
  | a :: l => by
    simp only [List.map_cons, List.sum_cons, sum_map_sq_mul r l]
    ring

/-- Mean of squares of a scalar-multiplied list. -/
theorem meanSq_map_mul (r : ℚ) (l : List ℚ) :
    Mamba2.meanSq (l.map (fun a => a * r)) = r ^ 2 * Mamba2.meanSq l := by
  simp only [Mamba2.meanSq, Mamba2.mean, List.length_map, sum_map_sq_mul]
  rw [mul_div_assoc]

/-- C8 counterexample: in the non-`norm_before_gate` mode the unit does not
equal gate-multiplication-before-normalization.  At weight [1], activation [2],
gate [1], eps = 9/4, with exact inverse square roots at both reached arguments
(25/4 and 289/100) and a nonzero gate value, the code yields [8/17] while the
claimed mode-(b) formula yields [4/5]. -/
theorem gated_norm_mode_b_cex :
    (Mamba2.rsqrtCex (25/4) * Mamba2.rsqrtCex (25/4) * (25/4) = 1) ∧
    (Mamba2.rsqrtCex (289/100) * Mamba2.rsqrtCex (289/100) * (289/100) = 1) ∧
    (0 < Mamba2.rsqrtCex (25/4)) ∧ (0 < Mamba2.rsqrtCex (289/100)) ∧
    (Mamba2.siluCex 1 ≠ 0) ∧
    Mamba2.gatedNormCode Mamba2.rsqrtCex Mamba2.siluCex (9/4) false [1] [2] [1] ≠
      Mamba2.gatedNormSpec Mamba2.rsqrtCex Mamba2.siluCex (9/4) false [1] [2] [1] := by
  refine ⟨by norm_num [Mamba2.rsqrtCex], by norm_num [Mamba2.rsqrtCex],
    by norm_num [Mamba2.rsqrtCex], by norm_num [Mamba2.rsqrtCex],
    by norm_num [Mamba2.siluCex], ?_⟩
  have hcode : Mamba2.gatedNormCode Mamba2.rsqrtCex Mamba2.siluCex (9/4) false [1] [2] [1] =
      [8/17] := by
    norm_num [Mamba2.gatedNormCode, Mamba2.rmsNormalize, Mamba2.meanSq, Mamba2.mean,
      Mamba2.rsqrtCex, Mamba2.siluCex]
  have hspec : Mamba2.gatedNormSpec Mamba2.rsqrtCex Mamba2.siluCex (9/4) false [1] [2] [1] =
      [4/5] := by
    norm_num [Mamba2.gatedNormSpec, Mamba2.rmsNormalize, Mamba2.meanSq, Mamba2.mean,
      Mamba2.rsqrtCex, Mamba2.siluCex]
  rw [hcode, hspec]
  intro hlist
  have : (8/17 : ℚ) = 4/5 := List.head_eq_of_cons_eq hlist
  norm_num at this

/-- C8 amended: with a gate present, the `norm_before_gate` mode multiplies
the silu gate after the normalization exactly as the spec's mode (a); the
other mode normalizes, multiplies by the silu gate, and normalizes a second
time, which agrees with the spec's gate-before-normalization mode (b) exactly
when the epsilon floor is zero (given exact inverse square roots at the
reached arguments). -/
theorem gated_norm_amended :
    (∀ rsqrt silu : ℚ → ℚ, ∀ eps : ℚ, ∀ w hs g : List ℚ,
      Mamba2.gatedNormCode rsqrt silu eps true w hs g =
        Mamba2.gatedNormSpec rsqrt silu eps true w hs g) ∧
    (∀ rsqrt silu : ℚ → ℚ, ∀ w hs g : List ℚ,
      Mamba2.isInvSqrtAt rsqrt (Mamba2.meanSq hs) →
      Mamba2.isInvSqrtAt rsqrt
        (Mamba2.meanSq (List.zipWith (fun a b => a * b) hs (g.map silu))) →
      Mamba2.isInvSqrtAt rsqrt
        (rsqrt (Mamba2.meanSq hs) ^ 2 *
          Mamba2.meanSq (List.zipWith (fun a b => a * b) hs (g.map silu))) →
      Mamba2.gatedNormCode rsqrt silu 0 false w hs g =
        Mamba2.gatedNormSpec rsqrt silu 0 false w hs g) := by
  constructor
  · intro rsqrt silu eps w hs g
    simp [Mamba2.gatedNormCode, Mamba2.gatedNormSpec]
  · intro rsqrt silu w hs g h1 h2 h3
    obtain ⟨h1p, h1e⟩ := h1
    obtain ⟨h2p, h2e⟩ := h2
    obtain ⟨h3p, h3e⟩ := h3
    have hn1 : Mamba2.rmsNormalize rsqrt 0 hs =
        hs.map (fun a => a * rsqrt (Mamba2.meanSq hs)) := by
      simp [Mamba2.rmsNormalize]
    have hz : List.zipWith (fun a b => a * b)
        (hs.map (fun a => a * rsqrt (Mamba2.meanSq hs))) (g.map silu) =
        (List.zipWith (fun a b => a * b) hs (g.map silu)).map
          (fun a => a * rsqrt (Mamba2.meanSq hs)) :=
      zipWith_mul_map_left (rsqrt (Mamba2.meanSq hs)) hs (g.map silu)
    have hm3ne : Mamba2.meanSq (List.zipWith (fun a b => a * b) hs (g.map silu)) ≠ 0 := by
      intro hzero
      rw [hzero] at h2e
      simp at h2e
    have hkey : rsqrt (Mamba2.meanSq hs) *
        rsqrt (rsqrt (Mamba2.meanSq hs) ^ 2 *
          Mamba2.meanSq (List.zipWith (fun a b => a * b) hs (g.map silu))) =
        rsqrt (Mamba2.meanSq (List.zipWith (fun a b => a * b) hs (g.map silu))) := by
      have hsq : (rsqrt (Mamba2.meanSq hs) *
            rsqrt (rsqrt (Mamba2.meanSq hs) ^ 2 *
              Mamba2.meanSq (List.zipWith (fun a b => a * b) hs (g.map silu)))) *
          (rsqrt (Mamba2.meanSq hs) *
            rsqrt (rsqrt (Mamba2.meanSq hs) ^ 2 *
              Mamba2.meanSq (List.zipWith (fun a b => a * b) hs (g.map silu)))) *
          Mamba2.meanSq (List.zipWith (fun a b => a * b) hs (g.map silu)) =
          rsqrt (Mamba2.meanSq (List.zipWith (fun a b => a * b) hs (g.map silu))) *
          rsqrt (Mamba2.meanSq (List.zipWith (fun a b => a * b) hs (g.map silu))) *
          Mamba2.meanSq (List.zipWith (fun a b => a * b) hs (g.map silu)) := by
        rw [h2e]
        calc (rsqrt (Mamba2.meanSq hs) *
              rsqrt (rsqrt (Mamba2.meanSq hs) ^ 2 *
                Mamba2.meanSq (List.zipWith (fun a b => a * b) hs (g.map silu)))) *
            (rsqrt (Mamba2.meanSq hs) *
              rsqrt (rsqrt (Mamba2.meanSq hs) ^ 2 *
                Mamba2.meanSq (List.zipWith (fun a b => a * b) hs (g.map silu)))) *
            Mamba2.meanSq (List.zipWith (fun a b => a * b) hs (g.map silu)) =
            rsqrt (rsqrt (Mamba2.meanSq hs) ^ 2 *
              Mamba2.meanSq (List.zipWith (fun a b => a * b) hs (g.map silu))) *
            rsqrt (rsqrt (Mamba2.meanSq hs) ^ 2 *
              Mamba2.meanSq (List.zipWith (fun a b => a * b) hs (g.map silu))) *
            (rsqrt (Mamba2.meanSq hs) ^ 2 *
              Mamba2.meanSq (List.zipWith (fun a b => a * b) hs (g.map silu))) := by
              ring
        _ = 1 := h3e
      have hsq2 := mul_right_cancel₀ hm3ne hsq
      rcases mul_self_eq_mul_self_iff.mp hsq2 with heq | heq
      · exact heq
      · exfalso
        have hpos : 0 < rsqrt (Mamba2.meanSq hs) *
            rsqrt (rsqrt (Mamba2.meanSq hs) ^ 2 *
              Mamba2.meanSq (List.zipWith (fun a b => a * b) hs (g.map silu))) :=
          mul_pos h1p h3p
        linarith
    have hLHSinner : Mamba2.rmsNormalize rsqrt 0
        ((List.zipWith (fun a b => a * b) hs (g.map silu)).map
          (fun a => a * rsqrt (Mamba2.meanSq hs))) =
        (List.zipWith (fun a b => a * b) hs (g.map silu)).map
          (fun a => a * rsqrt (Mamba2.meanSq (List.zipWith (fun a b => a * b) hs (g.map silu)))) := by
      simp only [Mamba2.rmsNormalize, meanSq_map_mul, add_zero, List.map_map]
      have hfun : ((fun a => a * rsqrt (rsqrt (Mamba2.meanSq hs) ^ 2 *
            Mamba2.meanSq (List.zipWith (fun a b => a * b) hs (g.map silu)))) ∘
          (fun a : ℚ => a * rsqrt (Mamba2.meanSq hs))) =
          (fun a : ℚ => a *
            rsqrt (Mamba2.meanSq (List.zipWith (fun a b => a * b) hs (g.map silu)))) := by
        funext a
        simp only [Function.comp]
        rw [mul_assoc, hkey]
      rw [hfun]
    have hRHSinner : Mamba2.rmsNormalize rsqrt 0
        (List.zipWith (fun a b => a * b) hs (g.map silu)) =
        (List.zipWith (fun a b => a * b) hs (g.map silu)).map
          (fun a => a * rsqrt (Mamba2.meanSq (List.zipWith (fun a b => a * b) hs (g.map silu)))) := by
      simp [Mamba2.rmsNormalize]
    show List.zipWith (fun a b => a * b) w
        (Mamba2.rmsNormalize rsqrt 0
          (List.zipWith (fun a b => a * b) (Mamba2.rmsNormalize rsqrt 0 hs) (g.map silu))) =
      List.zipWith (fun a b => a * b) w
        (Mamba2.rmsNormalize rsqrt 0 (List.zipWith (fun a b => a * b) hs (g.map silu)))
    rw [hn1, hz, hLHSinner, hRHSinner]

/-- C8 witness for the amended claim: eps = 0, weight [1], activation [2],
gate [5], silu interpreted as the constant 1, rsqrt exact at the reached
arguments 4 and 1; the two mode-(b) formulations agree. -/
theorem gated_norm_amended_witness :
    Mamba2.isInvSqrtAt Mamba2.rsqrtW (Mamba2.meanSq [2]) ∧
    Mamba2.gatedNormCode Mamba2.rsqrtW Mamba2.oneFun 0 false [1] [2] [5] =
      Mamba2.gatedNormSpec Mamba2.rsqrtW Mamba2.oneFun 0 false [1] [2] [5] := by
  constructor
  · constructor <;>
      norm_num [Mamba2.rsqrtW, Mamba2.meanSq, Mamba2.mean]
  · exact gated_norm_amended.2 Mamba2.rsqrtW Mamba2.oneFun [1] [2] [5]
      (by constructor <;>
        norm_num [Mamba2.rsqrtW, Mamba2.oneFun, Mamba2.meanSq, Mamba2.mean])
      (by constructor <;>
        norm_num [Mamba2.rsqrtW, Mamba2.oneFun, Mamba2.meanSq, Mamba2.mean])
      (by constructor <;>
        norm_num [Mamba2.rsqrtW, Mamba2.oneFun, Mamba2.meanSq, Mamba2.mean])

/-- C3 witness: the divergence realized at silu interpreted as the constant 1
and rsqrt as the exact inverse square root of 25/4. -/
theorem slow_post_skips_gated_norm_witness :
    (Mamba2.oneFun 1 ≠ 0) ∧
    Mamba2.slowPost 1 Mamba2.oneFun (fun _ _ => 1) (fun _ _ => 1) (fun _ => 1)
        (fun _ => 1) 0 0 ≠
      (Mamba2.gatedNormCode Mamba2.rsqrtC3 Mamba2.oneFun (9/4) true [1] [2] [1]).getD 0 0 :=
  ⟨by norm_num [Mamba2.oneFun],
    slow_post_skips_gated_norm Mamba2.oneFun Mamba2.rsqrtC3
      (by norm_num [Mamba2.oneFun]) rfl⟩

end Mamba2
